import Mathlib

/-!
Verification of the utopia-node-agent lifecycle and reconciliation engine.

This file gives a shallow embedding of the agent's core components:

* the GPU monitor (`internal/gpu`): cached device snapshots, the busy
  heuristic, refresh, and the availability queries;
* the container manager (`internal/container`): the cached container set,
  single-item and full refresh against a docker provider;
* the FRP supervisor configuration generator (`internal/frp` and the
  agent's `generateFRPConfig`);
* the agent `Start()` sequence (`internal/agent`).

External effectful calls (NVML, docker, the filesystem) are modelled as
provider records supplying the outcome of each call; the embedded
functions thread cache state explicitly and return the same results the
Go code computes from those outcomes.
-/

namespace NodeAgent

/-! ## GPU monitor (internal/gpu/monitor.go) -/

/-- One accelerator's cached state, mirroring `gpu.GPUInfo`.
`usagePercent` is `float64` in Go; all values it takes come from an
integer NVML utilization counter, so it is modelled exactly as a rational. -/
structure GPUInfo where
  id : Int
  temperatureC : Int
  memoryTotalMB : Int
  memoryUsedMB : Int
  name : String
  uuid : String
  busy : Bool
  usagePercent : ℚ
  deriving Repr, DecidableEq

/-- The Go zero value of `gpu.GPUInfo`, returned by `GetGPUByID` misses. -/
def GPUInfo.zero : GPUInfo :=
  { id := 0, temperatureC := 0, memoryTotalMB := 0, memoryUsedMB := 0
    name := "", uuid := "", busy := false, usagePercent := 0 }

/-- The per-device values NVML delivers for one device handle, after the
code's own defaulting of failed sub-queries (name/uuid default to
"Unknown", temperature to 0, memory to 0/0, utilization to 0).  Only the
device-count and device-handle calls can abort a refresh, so those are the
only fallible points kept in `NVMLProvider`. -/
structure NVMLReading where
  name : String
  uuid : String
  temperatureC : Int
  memoryTotalMB : Nat
  memoryUsedMB : Nat
  usagePercent : ℚ
  deriving Repr, DecidableEq

/-- Outcomes of the NVML calls one `RefreshGPUInfo` performs. -/
structure NVMLProvider where
  deviceCount : Except String Nat
  device : Nat → Except String NVMLReading

/-- The busy heuristic of `RefreshGPUInfo`: only computed when
`totalMB > 0`; otherwise the `busy := false` initialisation stands. -/
def computeBusy (totalMB usedMB : Nat) (usagePercent : ℚ) : Bool :=
  if 0 < totalMB then
    decide ((usedMB : ℚ) / (totalMB : ℚ) * 100 > 10) || decide (usagePercent > 10)
  else
    false

/-- The `GPUInfo` record `RefreshGPUInfo` builds for device index `i`. -/
def mkGPUInfo (i : Nat) (r : NVMLReading) : GPUInfo :=
  { id := (i : Int)
    temperatureC := r.temperatureC
    memoryTotalMB := (r.memoryTotalMB : Int)
    memoryUsedMB := (r.memoryUsedMB : Int)
    name := r.name
    uuid := r.uuid
    busy := computeBusy r.memoryTotalMB r.memoryUsedMB r.usagePercent
    usagePercent := r.usagePercent }

/-- The cached GPU snapshot held by `gpu.Monitor` behind its lock. -/
structure GPUMonitor where
  gpus : List GPUInfo
  deriving Repr, DecidableEq

/-- The refresh loop body: builds the scratch slice for indices
`start, start+1, …, start+k-1`, aborting at the first failed device
handle, exactly as the Go `for` loop does. -/
def buildGPUsAux (p : NVMLProvider) (start : Nat) : Nat → Except String (List GPUInfo)
  | 0 => .ok []
  | k + 1 =>
    match p.device start with
    | .error e => .error e
    | .ok r =>
      match buildGPUsAux p (start + 1) k with
      | .error e => .error e
      | .ok rest => .ok (mkGPUInfo start r :: rest)

/-- The off-lock part of `RefreshGPUInfo`: device count, then the scratch
slice of fresh `GPUInfo` records. -/
def buildGPUList (p : NVMLProvider) : Except String (List GPUInfo) :=
  match p.deviceCount with
  | .error e => .error e
  | .ok n => buildGPUsAux p 0 n

/-- `Monitor.RefreshGPUInfo`: on success the snapshot is swapped wholesale
(one short critical section); on any error the method returns before the
swap, leaving the cached snapshot untouched. -/
def RefreshGPUInfo (p : NVMLProvider) (m : GPUMonitor) : GPUMonitor × Option String :=
  match buildGPUList p with
  | .ok gs => (⟨gs⟩, none)
  | .error e => (m, some e)

/-- `Monitor.GetGPUInfo`: returns a copy of the cached slice.  `GPUInfo`
is a plain value record, so the copy is a pure value. -/
def GetGPUInfo (m : GPUMonitor) : List GPUInfo :=
  m.gpus

/-- `Monitor.GetGPUByID`: bounds-checked indexed read. -/
def GetGPUByID (m : GPUMonitor) (id : Int) : GPUInfo × Bool :=
  if id < 0 ∨ (m.gpus.length : Int) ≤ id then
    (GPUInfo.zero, false)
  else
    (m.gpus.getD id.toNat GPUInfo.zero, true)

/-- `Monitor.IsGPUAvailable`. -/
def IsGPUAvailable (m : GPUMonitor) (id : Int) : Bool :=
  let r := GetGPUByID m id
  if r.2 then !r.1.busy else false

/-- `Monitor.IsGPUInUse`. -/
def IsGPUInUse (m : GPUMonitor) (id : Int) : Bool :=
  let r := GetGPUByID m id
  if r.2 then r.1.busy else false

/-- `Monitor.GetAvailableGPUs`: the stored `ID` field of every cached
device whose `Busy` flag is false, in snapshot order. -/
def GetAvailableGPUs (m : GPUMonitor) : List Int :=
  (m.gpus.filter (fun g => !g.busy)).map (fun g => g.id)

/-! ## Container manager (internal/container/manager.go)

The `containers` field of `container.Manager` is a Go map from container
id to `ContainerInfo`; it is modelled as an association list in which an
upsert removes any previous binding for the key before prepending the new
one, so lookups agree with Go map semantics. -/

/-- One managed workload's cached state, mirroring `container.ContainerInfo`
(nested Go maps are modelled as association lists of their entries). -/
structure ContainerInfo where
  id : String
  claimID : String
  image : String
  status : String
  gpuIDs : List Int
  ports : List (String × String)
  created : Int
  started : Int
  labels : List (String × String)
  deriving Repr, DecidableEq

/-- The fields of a parsed `docker inspect` record that `RefreshContainer`
reads (`container.DockerContainer`).  The RFC3339 timestamp parsing is
adapter plumbing; the provider supplies the resulting Unix values. -/
structure DockerRaw where
  id : String
  status : String
  image : String
  labels : List (String × String)
  rawPorts : List (String × List (String × String))
  createdUnix : Int
  startedUnix : Int
  deriving Repr, DecidableEq

/-- Outcomes of the docker CLI calls performed by the manager's refreshes:
`ps` is the id list of `docker ps -a --filter label=utopia.managed=true`,
`inspect` the parsed array `docker inspect <id>` yields. -/
structure DockerProvider where
  ps : Except String (List String)
  inspect : String → Except String (List DockerRaw)

/-- Go map lookup on a string-keyed label map, defaulting to `""`. -/
def lookupStr (l : List (String × String)) (k : String) : String :=
  match l.find? (fun kv => kv.1 = k) with
  | some kv => kv.2
  | none => ""

/-- The `utopia.gpu_ids` label parser: split on commas, keep the entries
that parse as integers after trimming. -/
def parseGpuIDs (s : String) : List Int :=
  if s = "" then []
  else (s.splitOn ",").filterMap (fun x => x.trim.toInt?)

/-- The port-map construction of `RefreshContainer`: keep each exposed
port whose binding list is non-empty with a non-empty host port, mapping
it to `hostIP:hostPort` of the first binding. -/
def buildPorts (raw : List (String × List (String × String))) : List (String × String) :=
  raw.filterMap (fun pb =>
    match pb.2 with
    | [] => none
    | b :: _ => if b.2 ≠ "" then some (pb.1, b.1 ++ ":" ++ b.2) else none)

/-- The `ContainerInfo` record `RefreshContainer` builds from an inspect
result. -/
def mkContainerInfo (c : DockerRaw) : ContainerInfo :=
  { id := c.id
    claimID := lookupStr c.labels "utopia.claim_id"
    image := c.image
    status := c.status
    gpuIDs := parseGpuIDs (lookupStr c.labels "utopia.gpu_ids")
    ports := buildPorts c.rawPorts
    created := c.createdUnix
    started := c.startedUnix
    labels := c.labels }

/-- The cached container set held by `container.Manager` behind its lock. -/
structure CManager where
  containers : List (String × ContainerInfo)
  deriving Repr, DecidableEq

/-- Go map assignment `m[k] = v` on the association-list model. -/
def CManager.upsert (m : CManager) (k : String) (v : ContainerInfo) : CManager :=
  ⟨(k, v) :: m.containers.filter (fun kv => kv.1 ≠ k)⟩

/-- Go map lookup `m[k]`. -/
def CManager.lookup (m : CManager) (k : String) : Option ContainerInfo :=
  (m.containers.find? (fun kv => kv.1 = k)).map (fun kv => kv.2)

/-- `Manager.ListContainers`: the cached records (the Go code copies them
out of the map one struct at a time). -/
def ListContainers (m : CManager) : List ContainerInfo :=
  m.containers.map (fun kv => kv.2)

/-- `Manager.GetContainer`. -/
def GetContainer (m : CManager) (cid : String) : Option ContainerInfo :=
  m.lookup cid

/-- `Manager.RefreshContainer`: inspect one container; on any error the
cache is untouched; containers not labelled `utopia.managed=true` are
skipped without error; otherwise the record is upserted under the id the
caller passed. -/
def RefreshContainer (d : DockerProvider) (cid : String) (m : CManager) :
    CManager × Option String :=
  match d.inspect cid with
  | .error e => (m, some e)
  | .ok [] => (m, some "container not found")
  | .ok (c :: _) =>
    if lookupStr c.labels "utopia.managed" ≠ "true" then (m, none)
    else (m.upsert cid (mkContainerInfo c), none)

/-- `Manager.RefreshContainers`: list managed container ids (an error here
returns before anything is mutated), then clear the cache, then refresh
each id in turn, swallowing per-container errors. -/
def RefreshContainers (d : DockerProvider) (m : CManager) :
    CManager × Option String :=
  match d.ps with
  | .error e => (m, some e)
  | .ok ids => (ids.foldl (fun st cid => (RefreshContainer d cid st).1) ⟨[]⟩, none)

/-- The cache states observable by a concurrent reader once the loop of
`RefreshContainers` is past its `docker ps` call: the lock is released
after the wholesale clear and between the per-container upserts, so the
cleared state and every partially rebuilt state are visible. -/
def refreshStatesFrom (d : DockerProvider) : List String → CManager → List CManager
  | [], m => [m]
  | cid :: ids, m => m :: refreshStatesFrom d ids (RefreshContainer d cid m).1

/-- All cache states a concurrent reader can observe during one
`RefreshContainers` call (including the pre-state, read before the clear). -/
def refreshContainersTrace (d : DockerProvider) (m : CManager) : List CManager :=
  match d.ps with
  | .error _ => [m]
  | .ok ids => m :: refreshStatesFrom d ids ⟨[]⟩

/-- The cache states a concurrent reader can observe during one
`RefreshGPUInfo` call: the scratch slice is built off-lock and installed
in a single critical section, so only the pre- and post-states exist. -/
def refreshGPUTrace (p : NVMLProvider) (m : GPUMonitor) : List GPUMonitor :=
  [m, (RefreshGPUInfo p m).1]

/-! ## FRP supervisor configuration
(internal/frp/manager.go and `Agent.generateFRPConfig`) -/

/-- `frp.GPUTunnel`. -/
structure GPUTunnel where
  id : Int
  webLocalPort : Int
  sshLocalPort : Int
  deriving Repr, DecidableEq

/-- `frp.Config`, the input of the frpc template. -/
structure FrpConfig where
  serverAddr : String
  serverPort : Int
  frpToken : String
  nodeID : String
  agentApiPort : Int
  gpus : List GPUTunnel
  deriving Repr, DecidableEq

/-- `config.FRPConfig`: the static frp settings of the agent config. -/
structure FRPSettings where
  serverAddr : String
  serverPort : Int
  token : String
  deriving Repr, DecidableEq

/-- `config.Config`: the fields of the agent configuration. -/
structure AgentConfig where
  identityFilePath : String
  platformApiUrl : String
  bootstrapToken : String
  frpSettings : FRPSettings
  listenAddress : String
  authToken : String
  deriving Repr, DecidableEq

/-- `getPortFromAddress`: the part after the colon when the address has
exactly one colon, `""` otherwise. -/
def getPortFromAddress (address : String) : String :=
  let parts := address.splitOn ":"
  if parts.length = 2 then parts.getD 1 "" else ""

/-- The api-port computation at the top of `generateFRPConfig`: default
9200, overridden when the listen address yields a parseable port. -/
def parseApiPort (listenAddress : String) : Int :=
  let portStr := getPortFromAddress listenAddress
  if portStr = "" then 9200
  else
    match portStr.toInt? with
    | some p => p
    | none => 9200

/-- The tunnel list `generateFRPConfig` builds: one entry per device
index, web port `8000 + 10*i`, ssh port `8000 + 10*i + 1`. -/
def mkGPUTunnels (count : Nat) : List GPUTunnel :=
  (List.range count).map
    (fun (i : Nat) => ⟨(i : Int), 8000 + (i : Int) * 10, 8000 + (i : Int) * 10 + 1⟩)

/-- `Agent.generateFRPConfig`, with the NVML device count supplied as an
argument (the Go code reads it from the monitor and ignores the error,
leaving the count 0 in that case — callers pass the resulting count). -/
def generateFRPConfig (cfg : AgentConfig) (nodeID : String) (gpuCount : Nat) : FrpConfig :=
  { serverAddr := cfg.frpSettings.serverAddr
    serverPort := cfg.frpSettings.serverPort
    frpToken := cfg.frpSettings.token
    nodeID := nodeID
    agentApiPort := parseApiPort cfg.listenAddress
    gpus := mkGPUTunnels gpuCount }

/-- One tunnel section of the rendered frpc configuration, keeping the
fields the claims inspect: the section header, the local port, and the
`meta_tunnel_type` value. -/
structure TunnelSection where
  header : String
  localPort : Int
  tunnelKind : String
  deriving Repr, DecidableEq

/-- The `range .Gpus` body of the frpc template: a web section then an
ssh section per tunnel, in order. -/
def dataSectionsOf (nodeID : String) : List GPUTunnel → List TunnelSection
  | [] => []
  | g :: gs =>
    ⟨"data_" ++ nodeID ++ "_gpu" ++ toString g.id ++ "_web", g.webLocalPort, "container-data"⟩ ::
    ⟨"data_" ++ nodeID ++ "_gpu" ++ toString g.id ++ "_ssh", g.sshLocalPort, "container-data"⟩ ::
    dataSectionsOf nodeID gs

/-- The single `[control_...]` section of the template. -/
def controlSection (nodeID : String) (apiPort : Int) : TunnelSection :=
  ⟨"control_" ++ nodeID, apiPort, "agent-control"⟩

/-- The section structure of the configuration the frpc template renders:
one control tunnel followed by the per-device data tunnels. -/
def renderSections (c : FrpConfig) : List TunnelSection :=
  controlSection c.nodeID c.agentApiPort :: dataSectionsOf c.nodeID c.gpus

/-- The two rendered data-tunnel blocks of one `GPUTunnel`, textually
following the template. -/
def renderTunnelBlock (nodeID : String) (g : GPUTunnel) : String :=
  "\n[data_" ++ nodeID ++ "_gpu" ++ toString g.id ++ "_web]\n" ++
  "type = \"tcp\"\nlocalIP = \"127.0.0.1\"\nlocalPort = " ++ toString g.webLocalPort ++
  "\nremotePort = 0\nmeta_tunnel_type = \"container-data\"\nmeta_gpu_id = " ++
  toString g.id ++ "\nmeta_port_name = \"web\"\n" ++
  "\n[data_" ++ nodeID ++ "_gpu" ++ toString g.id ++ "_ssh]\n" ++
  "type = \"tcp\"\nlocalIP = \"127.0.0.1\"\nlocalPort = " ++ toString g.sshLocalPort ++
  "\nremotePort = 0\nmeta_tunnel_type = \"container-data\"\nmeta_gpu_id = " ++
  toString g.id ++ "\nmeta_port_name = \"ssh\"\n"

/-- The rendered `range` loop of the template. -/
def renderGpuBlocks (nodeID : String) : List GPUTunnel → String
  | [] => ""
  | g :: gs => renderTunnelBlock nodeID g ++ renderGpuBlocks nodeID gs

/-- `Manager.GenerateConfig` as a function to the rendered file contents:
the template applied to a `frp.Config` value.  `text/template` execution
over this template reads only the fields listed and iterates `Gpus` in
slice order, so the rendering is this pure function of the config. -/
def GenerateConfig (c : FrpConfig) : String :=
  "\n[common]\nserverAddr = \"" ++ c.serverAddr ++ "\"\nserverPort = " ++
  toString c.serverPort ++ "\ntoken = \"" ++ c.frpToken ++ "\"\nmeta_node_id = \"" ++
  c.nodeID ++ "\"\n\n[control_" ++ c.nodeID ++ "]\ntype = \"tcp\"\nlocalIP = \"127.0.0.1\"\nlocalPort = " ++
  toString c.agentApiPort ++ "\nremotePort = 0\nmeta_tunnel_type = \"agent-control\"\n" ++
  renderGpuBlocks c.nodeID c.gpus

/-! ## The `Agent.Start()` sequence (internal/agent/agent.go) -/

/-- The stages of `Agent.Start()`, in program order. -/
inductive StartStep
  | bootstrapStep
  | monitorsStep
  | containerMgrStep
  | containerRefreshStep
  | frpStep
  | apiServerStep
  | backgroundStep
  deriving Repr, DecidableEq

/-- Outcomes of the external calls the start sequence makes, one field
per fallible call.  `apiListenRes` is the result of the blocking
`ListenAndServe` performed inside the goroutine `startAPIServer` spawns. -/
structure StartEnv where
  bootstrapRes : Except String Unit
  newGPUMonitorRes : Except String Unit
  firstGPURefreshRes : Except String Unit
  gpuCountRes : Except String Nat
  newContainerManagerRes : Except String Unit
  firstContainerRefreshRes : Except String Unit
  frpStartRes : Except String Unit
  apiListenRes : Except String Unit

/-- `Agent.initializeMonitors`: monitor creation, first refresh, and the
count read, each fatal. -/
def initMonitorsOutcome (e : StartEnv) : Except String Unit :=
  match e.newGPUMonitorRes with
  | .error msg => .error ("failed to create GPU monitor: " ++ msg)
  | .ok _ =>
    match e.firstGPURefreshRes with
    | .error msg => .error ("failed to refresh GPU info: " ++ msg)
    | .ok _ =>
      match e.gpuCountRes with
      | .error msg => .error ("failed to get GPU count: " ++ msg)
      | .ok _ => .ok ()

/-- `Agent.initializeContainerManager`: manager construction is fatal;
the first full container refresh only prints a warning on failure. -/
def initContainerMgrOutcome (e : StartEnv) : Except String Unit :=
  match e.newContainerManagerRes with
  | .error msg => .error ("failed to create container manager: " ++ msg)
  | .ok _ => .ok ()

/-- `Agent.Start()`: the steps reached, in order, paired with the value
`Start` returns.  `startAPIServer` launches the listener in a goroutine
and returns nil unconditionally; a listen failure is printed from the
goroutine, so `apiListenRes` never influences either component. -/
def AgentStart (e : StartEnv) : List StartStep × Except String Unit :=
  match e.bootstrapRes with
  | .error msg => ([.bootstrapStep], .error ("bootstrap failed: " ++ msg))
  | .ok _ =>
    match initMonitorsOutcome e with
    | .error msg =>
      ([.bootstrapStep, .monitorsStep], .error ("failed to initialize monitors: " ++ msg))
    | .ok _ =>
      match initContainerMgrOutcome e with
      | .error msg =>
        ([.bootstrapStep, .monitorsStep, .containerMgrStep],
         .error ("failed to initialize container manager: " ++ msg))
      | .ok _ =>
        match e.frpStartRes with
        | .error msg =>
          ([.bootstrapStep, .monitorsStep, .containerMgrStep, .containerRefreshStep, .frpStep],
           .error ("failed to start FRP: " ++ msg))
        | .ok _ =>
          ([.bootstrapStep, .monitorsStep, .containerMgrStep, .containerRefreshStep,
            .frpStep, .apiServerStep, .backgroundStep], .ok ())

/-! ## Reference-level model of snapshot copying

Go structs copy by value, but the maps and slices inside them copy as
references.  To state the defensive-copy claim the nested `Ports`,
`Labels` and `GPUIDs` components of a cached container are modelled as
heap addresses; scalar and string fields are plain values, as in Go
(strings are immutable).  `gpu.GPUInfo` has no map or slice field, so its
records carry no address. -/

/-- A heap address. -/
abbrev Addr := Nat

/-- A cached container record as the Go runtime holds it: value fields
inline, the nested maps and the gpu-id slice as shared references. -/
structure ContainerRec where
  id : String
  claimID : String
  image : String
  status : String
  gpuIDsAddr : Addr
  portsAddr : Addr
  labelsAddr : Addr
  created : Int
  started : Int
  deriving Repr, DecidableEq

/-- The heap backing the string maps and int slices container records
reference. -/
structure Heap where
  strMaps : Addr → List (String × String)
  intSlices : Addr → List Int

/-- Go map assignment on the contents of a string map. -/
def upsertStr (k v : String) (l : List (String × String)) : List (String × String) :=
  (k, v) :: l.filter (fun kv => kv.1 ≠ k)

/-- Writing `k ↦ v` into the map at address `a`: the one mutation a
caller can perform through a returned container record. -/
def Heap.writeMap (h : Heap) (a : Addr) (k v : String) : Heap :=
  { h with strMaps := fun a' => if a' = a then upsertStr k v (h.strMaps a) else h.strMaps a' }

/-- The container manager's internal state at the reference level. -/
structure RManager where
  containers : List (String × ContainerRec)

/-- `Manager.ListContainers` at the reference level: each record is
struct-copied into the result, so the address fields are returned as
stored. -/
def listContainersRef (m : RManager) : List ContainerRec :=
  m.containers.map (fun kv => kv.2)

/-- The value a reader of a container record observes under a heap: the
record with its references dereferenced. -/
def containerView (h : Heap) (r : ContainerRec) : ContainerInfo :=
  { id := r.id
    claimID := r.claimID
    image := r.image
    status := r.status
    gpuIDs := h.intSlices r.gpuIDsAddr
    ports := h.strMaps r.portsAddr
    created := r.created
    started := r.started
    labels := h.strMaps r.labelsAddr }

/-- The observable contents of a `ListContainers` snapshot under a heap. -/
def listView (m : RManager) (h : Heap) : List ContainerInfo :=
  (listContainersRef m).map (containerView h)

/-- The observable contents of a `GetGPUInfo` snapshot under a heap:
`GPUInfo` holds no reference, so the heap is not consulted. -/
def gpuSnapshotView (m : GPUMonitor) (_h : Heap) : List GPUInfo :=
  GetGPUInfo m

/-! ## The workload-creation path (api/server.go createContainer) -/

/-- A container-creation request.  The handler in `server.go` validates
the requested count (`gpu_count` in the API documentation), while the
container manager binds the listed device ids (`gpu_ids` in
`container.CreateRequest`); both fields are kept here. -/
structure CreateRequest where
  claimID : String
  image : String
  gpuCount : Int
  gpuIDs : List Int
  deriving Repr, DecidableEq

/-- The availability gate of the `createContainer` handler: reject a
negative count (400), reject a count exceeding the number of currently
cached available devices (409), otherwise proceed to the docker commit. -/
def createContainerGate (m : GPUMonitor) (gpuCount : Int) : Bool :=
  decide (0 ≤ gpuCount) && decide (gpuCount ≤ ((GetAvailableGPUs m).length : Int))

/-- Whether the handler admits a request to the commit stage. -/
def handlerAdmits (m : GPUMonitor) (req : CreateRequest) : Bool :=
  createContainerGate m req.gpuCount

/-- The `--gpus` arguments `Manager.CreateContainer` passes to
`docker run`: the request's device ids verbatim. -/
def gpuDeviceArgs (gpuIDs : List Int) : List String :=
  if 0 < gpuIDs.length then
    ["--gpus", "device=" ++ String.intercalate "," (gpuIDs.map toString)]
  else []

/-! ## Theorems -/

/-- C1: a cache refresh that fails leaves the observable snapshot exactly
as it was: a failed `RefreshGPUInfo` returns before the swap, and a
failed `RefreshContainers` returns before the wholesale clear, so both
caches keep their stale-but-valid data. -/
theorem refresh_failure_preserves_snapshot :
    (∀ (p : NVMLProvider) (m : GPUMonitor) (e : String),
        (RefreshGPUInfo p m).2 = some e →
        (RefreshGPUInfo p m).1 = m ∧ GetGPUInfo (RefreshGPUInfo p m).1 = GetGPUInfo m) ∧
    (∀ (d : DockerProvider) (m : CManager) (e : String),
        (RefreshContainers d m).2 = some e →
        (RefreshContainers d m).1 = m ∧
          ListContainers (RefreshContainers d m).1 = ListContainers m) := by
  constructor
  · intro p m e h
    unfold RefreshGPUInfo at *
    cases hb : buildGPUList p with
    | ok gs => rw [hb] at h; exact absurd h (by simp)
    | error msg => exact ⟨rfl, rfl⟩
  · intro d m e h
    unfold RefreshContainers at *
    cases hb : d.ps with
    | ok ids => rw [hb] at h; exact absurd h (by simp)
    | error msg => exact ⟨rfl, rfl⟩

/-- An NVML provider whose device-count call fails. -/
def nvmlDown : NVMLProvider :=
  { deviceCount := .error "failed to get device count: Unknown Error"
    device := fun _ => .error "failed to get device handle" }

/-- A docker provider whose `docker ps` call fails. -/
def dockerDown : DockerProvider :=
  { ps := .error "failed to list containers: exit status 1"
    inspect := fun _ => .error "failed to inspect container" }

/-- A sample cached GPU snapshot: device 0 idle, device 1 busy. -/
def gpuTwoState : GPUMonitor :=
  ⟨[{ id := 0, temperatureC := 30, memoryTotalMB := 1000, memoryUsedMB := 50
      name := "A", uuid := "GPU-0", busy := false, usagePercent := 0 },
    { id := 1, temperatureC := 60, memoryTotalMB := 1000, memoryUsedMB := 800
      name := "B", uuid := "GPU-1", busy := true, usagePercent := 95 }]⟩

/-- A sample cached container record. -/
def infoA : ContainerInfo :=
  { id := "a-full", claimID := "claim-a", image := "img-a", status := "running"
    gpuIDs := [0], ports := [], created := 10, started := 11
    labels := [("utopia.managed", "true")] }

/-- A sample cached container state holding one container. -/
def cmOneState : CManager :=
  ⟨[("a", infoA)]⟩

/-- Witness for C1: concrete failing providers leave the concrete cache
states untouched. -/
theorem refresh_failure_preserves_snapshot_witness :
    ((RefreshGPUInfo nvmlDown gpuTwoState).1 = gpuTwoState ∧
      GetGPUInfo (RefreshGPUInfo nvmlDown gpuTwoState).1 = GetGPUInfo gpuTwoState) ∧
    ((RefreshContainers dockerDown cmOneState).1 = cmOneState ∧
      ListContainers (RefreshContainers dockerDown cmOneState).1 = ListContainers cmOneState) :=
  ⟨refresh_failure_preserves_snapshot.1 nvmlDown gpuTwoState
      "failed to get device count: Unknown Error" (by decide),
   refresh_failure_preserves_snapshot.2 dockerDown cmOneState
      "failed to list containers: exit status 1" (by decide)⟩

/-- C10: `GetGPUByID` is total and bounds-checked: any out-of-range id
yields the zero record and `false`, and both availability probes answer
`false` there; an in-range id yields the cached entry and `true`. -/
theorem gpu_by_id_total :
    ∀ (m : GPUMonitor) (id : Int),
      ((id < 0 ∨ (m.gpus.length : Int) ≤ id) →
        GetGPUByID m id = (GPUInfo.zero, false) ∧
          IsGPUAvailable m id = false ∧ IsGPUInUse m id = false) ∧
      (0 ≤ id → id < (m.gpus.length : Int) →
        GetGPUByID m id = (m.gpus.getD id.toNat GPUInfo.zero, true)) := by
  intro m id
  constructor
  · intro h
    have hby : GetGPUByID m id = (GPUInfo.zero, false) := by
      unfold GetGPUByID
      rw [if_pos h]
    refine ⟨hby, ?_, ?_⟩
    · simp [IsGPUAvailable, hby]
    · simp [IsGPUInUse, hby]
  · intro h0 hlt
    unfold GetGPUByID
    rw [if_neg]
    push_neg
    exact ⟨h0, hlt⟩

/-- Witness for C10 at a concrete state: ids −1 and 2 are out of range
for the two-device snapshot, id 1 is in range. -/
theorem gpu_by_id_total_witness :
    (GetGPUByID gpuTwoState (-1) = (GPUInfo.zero, false) ∧
      IsGPUAvailable gpuTwoState (-1) = false ∧ IsGPUInUse gpuTwoState (-1) = false) ∧
    (GetGPUByID gpuTwoState 2 = (GPUInfo.zero, false) ∧
      IsGPUAvailable gpuTwoState 2 = false ∧ IsGPUInUse gpuTwoState 2 = false) ∧
    GetGPUByID gpuTwoState 1 = (gpuTwoState.gpus.getD 1 GPUInfo.zero, true) :=
  ⟨(gpu_by_id_total gpuTwoState (-1)).1 (by decide),
   (gpu_by_id_total gpuTwoState 2).1 (by decide),
   (gpu_by_id_total gpuTwoState 1).2 (by decide) (by decide)⟩

/-- The first observable state of a container full refresh past its
`docker ps` call is the state the refresh starts the loop from. -/
lemma self_mem_refreshStatesFrom (d : DockerProvider) :
    ∀ (ids : List String) (m : CManager), m ∈ refreshStatesFrom d ids m := by
  intro ids m
  cases ids <;> simp [refreshStatesFrom]

/-- C2 (amended): a GPU refresh installs its scratch snapshot in a single
critical section, so every state observable during it reads as the
complete pre- or complete post-refresh snapshot; a container full
refresh, however, makes its wholesale clear observable: whenever
`docker ps` succeeds, the emptied cache is one of the states a concurrent
reader can observe. -/
theorem refresh_atomicity_corrected :
    (∀ (p : NVMLProvider) (m s : GPUMonitor),
        s ∈ refreshGPUTrace p m →
        GetGPUInfo s = GetGPUInfo m ∨ GetGPUInfo s = GetGPUInfo (RefreshGPUInfo p m).1) ∧
    (∀ (d : DockerProvider) (m : CManager) (ids : List String),
        d.ps = .ok ids → (⟨[]⟩ : CManager) ∈ refreshContainersTrace d m) := by
  constructor
  · intro p m s hs
    simp only [refreshGPUTrace, List.mem_cons, List.mem_singleton, List.not_mem_nil] at hs
    rcases hs with h | h | h
    · exact Or.inl (by rw [h])
    · exact Or.inr (by rw [h])
    · exact absurd h (by simp)
  · intro d m ids h
    unfold refreshContainersTrace
    rw [h]
    exact List.mem_cons_of_mem _ (self_mem_refreshStatesFrom d ids ⟨[]⟩)

/-- Inspect data for two managed containers, used by the refresh trace
counterexample. -/
def rawB : DockerRaw :=
  { id := "b-full", status := "running", image := "img-b"
    labels := [("utopia.managed", "true"), ("utopia.claim_id", "claim-b"), ("utopia.gpu_ids", "0")]
    rawPorts := [], createdUnix := 20, startedUnix := 21 }

/-- Second managed container for the refresh trace counterexample. -/
def rawC : DockerRaw :=
  { id := "c-full", status := "running", image := "img-c"
    labels := [("utopia.managed", "true"), ("utopia.claim_id", "claim-c"), ("utopia.gpu_ids", "1")]
    rawPorts := [], createdUnix := 30, startedUnix := 31 }

/-- A docker provider reporting the two managed containers `b` and `c`. -/
def dockerTwoUp : DockerProvider :=
  { ps := .ok ["b", "c"]
    inspect := fun cid =>
      if cid = "b" then .ok [rawB]
      else if cid = "c" then .ok [rawC]
      else .error "container not found" }

/-- The state a reader observes after the clear of a full refresh of
`cmOneState` against `dockerTwoUp` (the second entry of the trace). -/
def cmMid : CManager :=
  (refreshContainersTrace dockerTwoUp cmOneState).getD 1 cmOneState

/-- C2 counterexample: refreshing the one-container cache against a
docker provider reporting containers `b` and `c` exposes an intermediate
state whose snapshot (the empty set) is neither the pre-refresh snapshot
nor the post-refresh snapshot. -/
theorem refresh_atomicity_counterexample :
    cmMid ∈ refreshContainersTrace dockerTwoUp cmOneState ∧
    ListContainers cmMid ≠ ListContainers cmOneState ∧
    ListContainers cmMid ≠ ListContainers (RefreshContainers dockerTwoUp cmOneState).1 := by
  refine ⟨by decide, by decide, by decide⟩

/-- Witness for the amended C2 at concrete inputs. -/
theorem refresh_atomicity_corrected_witness :
    (GetGPUInfo gpuTwoState = GetGPUInfo gpuTwoState ∨
      GetGPUInfo gpuTwoState = GetGPUInfo (RefreshGPUInfo nvmlDown gpuTwoState).1) ∧
    (⟨[]⟩ : CManager) ∈ refreshContainersTrace dockerTwoUp cmOneState :=
  ⟨refresh_atomicity_corrected.1 nvmlDown gpuTwoState gpuTwoState
      (by simp [refreshGPUTrace]),
   refresh_atomicity_corrected.2 dockerTwoUp cmOneState ["b", "c"] rfl⟩

/-- A request whose count passes the handler's gate while its `gpu_ids`
name the busy device 1. -/
def reqBusyBind : CreateRequest :=
  { claimID := "claim-x", image := "img-x", gpuCount := 1, gpuIDs := [1] }

/-- The same count bound to the idle device instead. -/
def reqIdleBind : CreateRequest :=
  { claimID := "claim-y", image := "img-x", gpuCount := 1, gpuIDs := [0] }

/-- C3 counterexample: with device 0 idle and device 1 busy in the cached
snapshot, a request for one GPU that binds `gpu_ids = [1]` passes the
handler's availability gate and the commit hands device 1 — currently
marked busy — to `docker run`. -/
theorem creation_gate_counterexample :
    handlerAdmits gpuTwoState reqBusyBind = true ∧
    reqBusyBind.gpuIDs = [1] ∧
    IsGPUInUse gpuTwoState 1 = true ∧
    gpuDeviceArgs reqBusyBind.gpuIDs = ["--gpus", "device=1"] := by
  refine ⟨by decide, by decide, by decide, by decide⟩

/-- C3 (amended): the creation path's only validation is a count check
against the cached snapshot — it admits a request exactly when
`0 ≤ gpu_count ≤ number of cached devices with busy=false` — and its
verdict never depends on the specific `gpu_ids` the commit will bind. -/
theorem creation_gate_corrected :
    (∀ (m : GPUMonitor) (c : Int),
        createContainerGate m c = true ↔
          0 ≤ c ∧ c ≤ ((m.gpus.filter (fun g => !g.busy)).length : Int)) ∧
    (∀ (m : GPUMonitor) (r1 r2 : CreateRequest), r1.gpuCount = r2.gpuCount →
        handlerAdmits m r1 = handlerAdmits m r2) := by
  constructor
  · intro m c
    simp [createContainerGate, GetAvailableGPUs]
  · intro m r1 r2 h
    unfold handlerAdmits
    rw [h]

/-- Witness for the amended C3 at concrete inputs: the gate admits count
1 against the two-device snapshot, and changing only the bound ids does
not change the verdict. -/
theorem creation_gate_corrected_witness :
    createContainerGate gpuTwoState 1 = true ∧
    handlerAdmits gpuTwoState reqBusyBind = handlerAdmits gpuTwoState reqIdleBind :=
  ⟨(creation_gate_corrected.1 gpuTwoState 1).mpr (by decide),
   creation_gate_corrected.2 gpuTwoState reqBusyBind reqIdleBind (by decide)⟩

/-- Every record a successful `buildGPUsAux` run produces is
`mkGPUInfo i r` for some device index `i` whose handle query succeeded. -/
lemma buildGPUsAux_mem {p : NVMLProvider} :
    ∀ {k s : Nat} {gs : List GPUInfo}, buildGPUsAux p s k = .ok gs →
      ∀ g ∈ gs, ∃ i r, p.device i = .ok r ∧ g = mkGPUInfo i r := by
  intro k
  induction k with
  | zero =>
    intro s gs h g hg
    simp [buildGPUsAux] at h
    subst h
    simp at hg
  | succ n ih =>
    intro s gs h g hg
    unfold buildGPUsAux at h
    cases hd : p.device s with
    | error e => rw [hd] at h; exact absurd h (by simp)
    | ok r =>
      rw [hd] at h
      cases hrest : buildGPUsAux p (s + 1) n with
      | error e => rw [hrest] at h; exact absurd h (by simp)
      | ok rest =>
        rw [hrest] at h
        simp at h
        subst h
        rcases List.mem_cons.mp hg with hg | hg
        · exact ⟨s, r, hd, hg⟩
        · exact ih hrest g hg

/-- C4 (amended): for every device of a successfully rebuilt snapshot,
when its memory total is positive the busy flag is exactly
`mem-used/mem-total > 10% OR utilization > 10%`; when the memory total is
0 (a failed memory query) the flag is forced to `false`, whatever the
utilization. -/
theorem busy_flag_corrected :
    ∀ (p : NVMLProvider) (gs : List GPUInfo), buildGPUList p = .ok gs →
      ∀ g ∈ gs,
        (0 < g.memoryTotalMB →
          g.busy = (decide ((g.memoryUsedMB : ℚ) / (g.memoryTotalMB : ℚ) * 100 > 10) ||
                    decide (g.usagePercent > 10))) ∧
        (g.memoryTotalMB = 0 → g.busy = false) := by
  intro p gs h g hg
  have hmem : ∃ i r, p.device i = .ok r ∧ g = mkGPUInfo i r := by
    unfold buildGPUList at h
    cases hc : p.deviceCount with
    | error e => rw [hc] at h; exact absurd h (by simp)
    | ok n => rw [hc] at h; exact buildGPUsAux_mem h g hg
  rcases hmem with ⟨i, r, _, hgr⟩
  subst hgr
  constructor
  · intro hpos
    have hpos2 : 0 < r.memoryTotalMB := by
      simpa [mkGPUInfo] using hpos
    simp only [mkGPUInfo]
    simp only [Int.cast_natCast]
    unfold computeBusy
    rw [if_pos hpos2]
  · intro h0
    have h02 : r.memoryTotalMB = 0 := by
      simpa [mkGPUInfo] using h0
    simp [mkGPUInfo, computeBusy, h02]

/-- A device reading whose memory query failed (totals zeroed) while its
utilization reads 50%. -/
def zeroMemReading : NVMLReading :=
  { name := "Z", uuid := "GPU-Z", temperatureC := 40
    memoryTotalMB := 0, memoryUsedMB := 0, usagePercent := 50 }

/-- An NVML provider exposing exactly the zero-memory device. -/
def nvmlZeroMem : NVMLProvider :=
  { deviceCount := .ok 1
    device := fun i => if i = 0 then .ok zeroMemReading else .error "failed to get device handle" }

/-- C4 counterexample: a refreshed device with memory total 0 and 50%
utilization has `busy = false`, while the claimed formula evaluates to
`true` — the flag does not equal the bare disjunction. -/
theorem busy_flag_counterexample :
    buildGPUList nvmlZeroMem = .ok [mkGPUInfo 0 zeroMemReading] ∧
    (mkGPUInfo 0 zeroMemReading).busy = false ∧
    (decide (((mkGPUInfo 0 zeroMemReading).memoryUsedMB : ℚ) /
               ((mkGPUInfo 0 zeroMemReading).memoryTotalMB : ℚ) * 100 > 10) ||
      decide ((mkGPUInfo 0 zeroMemReading).usagePercent > 10)) = true := by
  refine ⟨rfl, rfl, ?_⟩
  norm_num [mkGPUInfo, zeroMemReading]

/-- The two device readings behind `gpuTwoState`. -/
def readingIdle : NVMLReading :=
  { name := "A", uuid := "GPU-0", temperatureC := 30
    memoryTotalMB := 1000, memoryUsedMB := 50, usagePercent := 0 }

/-- A reading that trips both busy conditions. -/
def readingBusy : NVMLReading :=
  { name := "B", uuid := "GPU-1", temperatureC := 60
    memoryTotalMB := 1000, memoryUsedMB := 800, usagePercent := 95 }

/-- An NVML provider exposing the idle and the busy device. -/
def nvmlTwo : NVMLProvider :=
  { deviceCount := .ok 2
    device := fun i =>
      if i = 0 then .ok readingIdle
      else if i = 1 then .ok readingBusy
      else .error "failed to get device handle" }

/-- The snapshot `buildGPUList nvmlTwo` produces. -/
def gpusTwo : List GPUInfo := [mkGPUInfo 0 readingIdle, mkGPUInfo 1 readingBusy]

/-- Witness for the amended C4 at the busy device of a concrete refresh. -/
theorem busy_flag_corrected_witness :
    (mkGPUInfo 1 readingBusy).busy =
      (decide (((mkGPUInfo 1 readingBusy).memoryUsedMB : ℚ) /
                 ((mkGPUInfo 1 readingBusy).memoryTotalMB : ℚ) * 100 > 10) ||
        decide ((mkGPUInfo 1 readingBusy).usagePercent > 10)) :=
  (busy_flag_corrected nvmlTwo gpusTwo rfl (mkGPUInfo 1 readingBusy) (by simp [gpusTwo])).1
    (by decide)

/-- The local ports of the data tunnels for the first `n` device
indices, in template order: web then ssh per index. -/
def expectedDataPorts : Nat → List Int
  | 0 => []
  | n + 1 => expectedDataPorts n ++ [8000 + (n : Int) * 10, 8000 + (n : Int) * 10 + 1]

lemma dataSectionsOf_append (nid : String) (gs gs' : List GPUTunnel) :
    dataSectionsOf nid (gs ++ gs') = dataSectionsOf nid gs ++ dataSectionsOf nid gs' := by
  induction gs with
  | nil => rfl
  | cons g gs ih => simp [dataSectionsOf, ih]

lemma dataSectionsOf_kind (nid : String) :
    ∀ gs, ∀ s ∈ dataSectionsOf nid gs, s.tunnelKind = "container-data" := by
  intro gs
  induction gs with
  | nil => intro s hs; simp [dataSectionsOf] at hs
  | cons g gs ih =>
    intro s hs
    simp only [dataSectionsOf, List.mem_cons] at hs
    rcases hs with h | h | h
    · rw [h]
    · rw [h]
    · exact ih s h

lemma dataSectionsOf_length (nid : String) :
    ∀ gs : List GPUTunnel, (dataSectionsOf nid gs).length = 2 * gs.length := by
  intro gs
  induction gs with
  | nil => rfl
  | cons g gs ih =>
    simp only [dataSectionsOf, List.length_cons, ih, List.length]
    ring

lemma mkGPUTunnels_length (n : Nat) : (mkGPUTunnels n).length = n := by
  unfold mkGPUTunnels
  rw [List.length_map, List.length_range]

lemma mkGPUTunnels_succ (n : Nat) :
    mkGPUTunnels (n + 1) =
      mkGPUTunnels n ++ [⟨(n : Int), 8000 + (n : Int) * 10, 8000 + (n : Int) * 10 + 1⟩] := by
  simp [mkGPUTunnels, List.range_succ]

lemma dataSectionsOf_ports (nid : String) :
    ∀ n : Nat, (dataSectionsOf nid (mkGPUTunnels n)).map (fun s => s.localPort) =
      expectedDataPorts n := by
  intro n
  induction n with
  | zero => rfl
  | succ k ih =>
    rw [mkGPUTunnels_succ, dataSectionsOf_append, List.map_append, ih]
    rfl

lemma expectedDataPorts_lt (n : Nat) :
    ∀ x ∈ expectedDataPorts n, x < 8000 + (n : Int) * 10 := by
  induction n with
  | zero => intro x hx; simp [expectedDataPorts] at hx
  | succ k ih =>
    intro x hx
    simp only [expectedDataPorts, List.mem_append, List.mem_cons, List.mem_singleton] at hx
    have hk : ((k : Int)) + 1 = ((k + 1 : Nat) : Int) := by push_cast; ring
    rcases hx with hx | hx | hx
    · have := ih x hx
      push_cast
      push_cast at this
      linarith
    · rw [hx]; push_cast; linarith
    · simp at hx
      rw [hx]; push_cast; linarith

lemma expectedDataPorts_pairwise (n : Nat) :
    (expectedDataPorts n).Pairwise (· < ·) := by
  induction n with
  | zero => simp [expectedDataPorts]
  | succ k ih =>
    rw [expectedDataPorts, List.pairwise_append]
    refine ⟨ih, ?_, ?_⟩
    · simp
    · intro a ha b hb
      have halt := expectedDataPorts_lt k a ha
      simp only [List.mem_cons, List.mem_singleton] at hb
      rcases hb with hb | hb
      · rw [hb]; linarith
      · simp at hb
        rw [hb]; linarith

lemma expectedDataPorts_nodup (n : Nat) : (expectedDataPorts n).Nodup :=
  (expectedDataPorts_pairwise n).imp (fun h => ne_of_lt h)

/-- C5: for every device count `n`, the generated supervisor
configuration has exactly one control tunnel and exactly `2n` data
tunnels — a web and an ssh section per device — whose local ports are the
deterministic pattern `8000 + 10*i` / `8000 + 10*i + 1` of the device
index, all pairwise distinct. -/
theorem frp_tunnel_layout :
    ∀ (cfg : AgentConfig) (nodeID : String) (n : Nat),
      ((renderSections (generateFRPConfig cfg nodeID n)).filter
          (fun s => s.tunnelKind == "agent-control")).length = 1 ∧
      ((renderSections (generateFRPConfig cfg nodeID n)).filter
          (fun s => s.tunnelKind == "container-data")).length = 2 * n ∧
      ((renderSections (generateFRPConfig cfg nodeID n)).filter
            (fun s => s.tunnelKind == "container-data")).map (fun s => s.localPort) =
        expectedDataPorts n ∧
      (expectedDataPorts n).Nodup := by
  intro cfg nid n
  have hrender : renderSections (generateFRPConfig cfg nid n) =
      controlSection nid (parseApiPort cfg.listenAddress) ::
        dataSectionsOf nid (mkGPUTunnels n) := rfl
  have hctrl : (dataSectionsOf nid (mkGPUTunnels n)).filter
      (fun s => s.tunnelKind == "agent-control") = [] := by
    rw [List.filter_eq_nil_iff]
    intro s hs
    rw [dataSectionsOf_kind nid _ s hs]
    decide
  have hdata : (dataSectionsOf nid (mkGPUTunnels n)).filter
      (fun s => s.tunnelKind == "container-data") = dataSectionsOf nid (mkGPUTunnels n) := by
    rw [List.filter_eq_self]
    intro s hs
    rw [dataSectionsOf_kind nid _ s hs]
    rfl
  have hp : ((controlSection nid (parseApiPort cfg.listenAddress)).tunnelKind ==
      "agent-control") = true := rfl
  have hq : ¬ ((controlSection nid (parseApiPort cfg.listenAddress)).tunnelKind ==
      "container-data") = true := by simp [controlSection]
  refine ⟨?_, ?_, ?_, expectedDataPorts_nodup n⟩
  · rw [hrender, List.filter_cons, if_pos hp, hctrl]
    rfl
  · rw [hrender, List.filter_cons, if_neg hq, hdata, dataSectionsOf_length,
      mkGPUTunnels_length]
  · rw [hrender, List.filter_cons, if_neg hq, hdata, dataSectionsOf_ports]

/-- C6: supervisor config rendering is a pure function of the node
identity, the listen address, the accelerator count and the static frp
settings: two `GenerateConfig` runs from agent configurations that agree
on those inputs (whatever their other fields) produce byte-identical
file contents. -/
theorem config_generation_deterministic :
    ∀ (c1 c2 : AgentConfig) (nid1 nid2 : String) (n1 n2 : Nat),
      c1.frpSettings = c2.frpSettings →
      c1.listenAddress = c2.listenAddress →
      nid1 = nid2 → n1 = n2 →
      GenerateConfig (generateFRPConfig c1 nid1 n1) =
        GenerateConfig (generateFRPConfig c2 nid2 n2) := by
  intro c1 c2 nid1 nid2 n1 n2 hf hl hn hc
  subst hn
  subst hc
  have hcfg : generateFRPConfig c1 nid1 n1 = generateFRPConfig c2 nid1 n1 := by
    unfold generateFRPConfig
    rw [hf, hl]
  rw [hcfg]

/-- A sample agent configuration. -/
def cfgA : AgentConfig :=
  { identityFilePath := "/etc/utopia/node_id"
    platformApiUrl := "http://api.server.com"
    bootstrapToken := ""
    frpSettings := { serverAddr := "api.server.com", serverPort := 7000, token := "frp_connection_token" }
    listenAddress := "127.0.0.1:9200"
    authToken := "secret-one" }

/-- The same configuration with the frp-irrelevant fields changed. -/
def cfgB : AgentConfig :=
  { cfgA with identityFilePath := "/tmp/node_id", authToken := "secret-two" }

/-- Witness for C6: two configurations differing only in fields the
renderer never reads yield byte-identical output. -/
theorem config_generation_deterministic_witness :
    GenerateConfig (generateFRPConfig cfgA "42" 2) =
      GenerateConfig (generateFRPConfig cfgB "42" 2) :=
  config_generation_deterministic cfgA cfgB "42" "42" 2 2 rfl rfl rfl rfl

/-- A cached container record at the reference level: its ports map
lives at address 1. -/
def recA : ContainerRec :=
  { id := "a-full", claimID := "claim-a", image := "img-a", status := "running"
    gpuIDsAddr := 0, portsAddr := 1, labelsAddr := 2, created := 10, started := 11 }

/-- A manager caching exactly `recA`. -/
def rmOne : RManager := ⟨[("a", recA)]⟩

/-- The heap backing `rmOne`: labels at address 2, gpu ids at address 0,
an empty ports map at address 1. -/
def heap0 : Heap :=
  { strMaps := fun a => if a = 2 then [("utopia.managed", "true")] else []
    intSlices := fun a => if a = 0 then [0] else [] }

/-- The heap after a caller writes a binding through the ports map of the
record `ListContainers` returned. -/
def heap1 : Heap := heap0.writeMap recA.portsAddr "8888/tcp" "0.0.0.0:8888"

/-- C7 counterexample: `ListContainers` hands out the internal record
(shared `Ports` reference included); writing one key through the
returned record's ports map changes what a later `ListContainers` read
observes. -/
theorem snapshot_copy_counterexample :
    recA ∈ listContainersRef rmOne ∧
    listView rmOne heap1 ≠ listView rmOne heap0 := by
  refine ⟨by decide, by decide⟩

/-- C7 (amended): `GetGPUInfo` returns plain values — its snapshot is
independent of any heap mutation — while `ListContainers` returns records
sharing the internal nested-map references: a write through a returned
record's ports reference is reflected in the container's later observable
view. -/
theorem snapshot_copy_corrected :
    (∀ (m : GPUMonitor) (h h' : Heap), gpuSnapshotView m h = gpuSnapshotView m h') ∧
    (∀ (m : RManager) (h : Heap) (r : ContainerRec) (k v : String),
        r ∈ listContainersRef m →
          (containerView (h.writeMap r.portsAddr k v) r).ports =
            upsertStr k v ((containerView h r).ports) ∧
          containerView (h.writeMap r.portsAddr k v) r ∈
            listView m (h.writeMap r.portsAddr k v)) := by
  constructor
  · intro m h h'
    rfl
  · intro m h r k v hr
    constructor
    · simp [containerView, Heap.writeMap]
    · exact List.mem_map_of_mem _ hr

/-- Witness for the amended C7 at the concrete manager and heap. -/
theorem snapshot_copy_corrected_witness :
    gpuSnapshotView gpuTwoState heap0 = gpuSnapshotView gpuTwoState heap1 ∧
    ((containerView (heap0.writeMap recA.portsAddr "8888/tcp" "0.0.0.0:8888") recA).ports =
        upsertStr "8888/tcp" "0.0.0.0:8888" ((containerView heap0 recA).ports) ∧
      containerView (heap0.writeMap recA.portsAddr "8888/tcp" "0.0.0.0:8888") recA ∈
        listView rmOne (heap0.writeMap recA.portsAddr "8888/tcp" "0.0.0.0:8888")) :=
  ⟨snapshot_copy_corrected.1 gpuTwoState heap0 heap1,
   snapshot_copy_corrected.2 rmOne heap0 recA "8888/tcp" "0.0.0.0:8888" (by decide)⟩

/-- A successful scratch-slice build has one record per index, and each
record's stored `ID` is the device index it was built from. -/
lemma buildGPUsAux_get {p : NVMLProvider} :
    ∀ {k s : Nat} {gs : List GPUInfo}, buildGPUsAux p s k = .ok gs →
      gs.length = k ∧
        ∀ j : Nat, j < gs.length → (gs.getD j GPUInfo.zero).id = ((s + j : Nat) : Int) := by
  intro k
  induction k with
  | zero =>
    intro s gs h
    simp [buildGPUsAux] at h
    subst h
    exact ⟨rfl, fun j hj => absurd hj (by simp)⟩
  | succ n ih =>
    intro s gs h
    unfold buildGPUsAux at h
    cases hd : p.device s with
    | error e => rw [hd] at h; exact absurd h (by simp)
    | ok r =>
      rw [hd] at h
      cases hrest : buildGPUsAux p (s + 1) n with
      | error e => rw [hrest] at h; exact absurd h (by simp)
      | ok rest =>
        rw [hrest] at h
        simp at h
        subst h
        obtain ⟨hlen, hids⟩ := ih hrest
        constructor
        · simp [hlen]
        · intro j hj
          cases j with
          | zero => simp [mkGPUInfo]
          | succ j' =>
            have hj' : j' < rest.length := by
              simp at hj
              omega
            have hid := hids j' hj'
            simp only [List.getD_cons_succ]
            rw [hid]
            omega

/-- A refresh that returned no error installed exactly the scratch slice
it built. -/
lemma refresh_ok_state {p : NVMLProvider} {m m' : GPUMonitor}
    (h : RefreshGPUInfo p m = (m', none)) :
    buildGPUList p = .ok m'.gpus := by
  unfold RefreshGPUInfo at h
  cases hb : buildGPUList p with
  | ok gs =>
    rw [hb] at h
    have h1 : ({ gpus := gs } : GPUMonitor) = m' := congrArg Prod.fst h
    subst h1
    rfl
  | error e =>
    rw [hb] at h
    exact absurd (congrArg Prod.snd h) (by simp)

/-- For a snapshot whose stored ids equal the positions, membership in
`GetAvailableGPUs` is exactly being an in-range index whose device is not
busy. -/
lemma available_mem_indexed {m : GPUMonitor}
    (hid : ∀ j : Nat, j < m.gpus.length → (m.gpus.getD j GPUInfo.zero).id = (j : Int)) :
    ∀ i : Int, i ∈ GetAvailableGPUs m ↔
      (0 ≤ i ∧ i < (m.gpus.length : Int) ∧
        (m.gpus.getD i.toNat GPUInfo.zero).busy = false) := by
  intro i
  unfold GetAvailableGPUs
  constructor
  · intro hi
    obtain ⟨g, hgf, hgi⟩ := List.mem_map.mp hi
    obtain ⟨hgm, hgb⟩ := List.mem_filter.mp hgf
    obtain ⟨⟨j, hj⟩, hget⟩ := List.mem_iff_get.mp hgm
    have hgd : m.gpus.getD j GPUInfo.zero = g := by
      rw [List.getD_eq_get m.gpus GPUInfo.zero hj]
      exact hget
    have hgid : g.id = (j : Int) := by
      rw [← hgd]
      exact hid j hj
    have hij : i = (j : Int) := by rw [← hgi, hgid]
    refine ⟨?_, ?_, ?_⟩
    · rw [hij]; exact Int.natCast_nonneg j
    · rw [hij]; exact_mod_cast hj
    · have htn : i.toNat = j := by rw [hij]; simp
      rw [htn, hgd]
      simpa using hgb
  · rintro ⟨h0, hlt, hbusy⟩
    have hjlt : i.toNat < m.gpus.length := by omega
    have hmem : m.gpus.getD i.toNat GPUInfo.zero ∈ m.gpus := by
      rw [List.getD_eq_get m.gpus GPUInfo.zero hjlt]
      exact List.get_mem m.gpus _ _
    refine List.mem_map.mpr
      ⟨m.gpus.getD i.toNat GPUInfo.zero,
       List.mem_filter.mpr ⟨hmem, by simpa using hbusy⟩, ?_⟩
    rw [hid i.toNat hjlt]
    exact Int.toNat_of_nonneg h0

/-- C8: after any successful refresh, `GetAvailableGPUs` returns exactly
the in-range indices whose cached device has `busy = false`; in
particular every returned index is reported not-in-use and available. -/
theorem available_gpus_spec :
    ∀ (p : NVMLProvider) (m m' : GPUMonitor), RefreshGPUInfo p m = (m', none) →
      (∀ i : Int, i ∈ GetAvailableGPUs m' ↔
        (0 ≤ i ∧ i < (m'.gpus.length : Int) ∧
          (m'.gpus.getD i.toNat GPUInfo.zero).busy = false)) ∧
      (∀ i : Int, i ∈ GetAvailableGPUs m' →
        IsGPUInUse m' i = false ∧ IsGPUAvailable m' i = true) := by
  intro p m m' h
  have hb : buildGPUList p = .ok m'.gpus := refresh_ok_state h
  have hid : ∀ j : Nat, j < m'.gpus.length →
      (m'.gpus.getD j GPUInfo.zero).id = (j : Int) := by
    unfold buildGPUList at hb
    cases hc : p.deviceCount with
    | error e => rw [hc] at hb; exact absurd hb (by simp)
    | ok n =>
      rw [hc] at hb
      obtain ⟨-, hids⟩ := buildGPUsAux_get hb
      intro j hj
      have := hids j hj
      simpa using this
  have hiff := available_mem_indexed hid
  refine ⟨hiff, ?_⟩
  intro i hi
  obtain ⟨h0, hlt, hbusy⟩ := (hiff i).mp hi
  have hcond : ¬ (i < 0 ∨ (m'.gpus.length : Int) ≤ i) := by
    push_neg
    exact ⟨h0, hlt⟩
  have hby : GetGPUByID m' i = (m'.gpus.getD i.toNat GPUInfo.zero, true) := by
    unfold GetGPUByID
    rw [if_neg hcond]
  constructor
  · simp [IsGPUInUse, hby, hbusy]
    simpa using hbusy
  · simp [IsGPUAvailable, hby, hbusy]
    simpa using hbusy

/-- The monitor state a refresh against `nvmlTwo` installs. -/
def gmTwo : GPUMonitor := ⟨gpusTwo⟩

/-- Witness for C8: after refreshing against the concrete provider,
index 0 (the idle device) is returned and reported available. -/
theorem available_gpus_spec_witness :
    IsGPUInUse gmTwo 0 = false ∧ IsGPUAvailable gmTwo 0 = true :=
  (available_gpus_spec nvmlTwo ⟨[]⟩ gmTwo rfl).2 0
    (by norm_num [GetAvailableGPUs, gmTwo, gpusTwo, mkGPUInfo, readingIdle, readingBusy,
      computeBusy])

/-- C9 (amended): during `Start()`, the outcome of the workload cache's
first full refresh never influences the sequence (it is logged only), and
neither does the background listener's `ListenAndServe` outcome — an
API-server startup failure is printed from its goroutine, not propagated;
errors from bootstrap, monitor initialisation (including the first GPU
refresh), container-manager construction, or the supervisor start abort
the remaining steps and are returned synchronously; when those four
succeed, `Start()` runs every stage and returns success. -/
theorem start_sequence_corrected :
    (∀ (e : StartEnv) (r : Except String Unit),
        AgentStart { e with firstContainerRefreshRes := r } = AgentStart e) ∧
    (∀ (e : StartEnv) (r : Except String Unit),
        AgentStart { e with apiListenRes := r } = AgentStart e) ∧
    (∀ (e : StartEnv) (msg : String), e.bootstrapRes = .error msg →
        AgentStart e = ([.bootstrapStep], .error ("bootstrap failed: " ++ msg))) ∧
    (∀ (e : StartEnv) (msg : String), e.bootstrapRes = .ok () →
        initMonitorsOutcome e = .error msg →
        AgentStart e = ([.bootstrapStep, .monitorsStep],
          .error ("failed to initialize monitors: " ++ msg))) ∧
    (∀ (e : StartEnv) (msg : String), e.bootstrapRes = .ok () →
        initMonitorsOutcome e = .ok () → initContainerMgrOutcome e = .error msg →
        AgentStart e = ([.bootstrapStep, .monitorsStep, .containerMgrStep],
          .error ("failed to initialize container manager: " ++ msg))) ∧
    (∀ (e : StartEnv) (msg : String), e.bootstrapRes = .ok () →
        initMonitorsOutcome e = .ok () → initContainerMgrOutcome e = .ok () →
        e.frpStartRes = .error msg →
        AgentStart e = ([.bootstrapStep, .monitorsStep, .containerMgrStep,
          .containerRefreshStep, .frpStep], .error ("failed to start FRP: " ++ msg))) ∧
    (∀ e : StartEnv, e.bootstrapRes = .ok () →
        initMonitorsOutcome e = .ok () → initContainerMgrOutcome e = .ok () →
        e.frpStartRes = .ok () →
        AgentStart e = ([.bootstrapStep, .monitorsStep, .containerMgrStep,
          .containerRefreshStep, .frpStep, .apiServerStep, .backgroundStep], .ok ())) := by
  refine ⟨?_, ?_, ?_, ?_, ?_, ?_, ?_⟩
  · intro e r
    cases e
    rfl
  · intro e r
    cases e
    rfl
  · intro e msg h
    unfold AgentStart
    rw [h]
  · intro e msg h1 h2
    unfold AgentStart
    rw [h1, h2]
  · intro e msg h1 h2 h3
    unfold AgentStart
    rw [h1, h2, h3]
  · intro e msg h1 h2 h3 h4
    unfold AgentStart
    rw [h1, h2, h3, h4]
  · intro e h1 h2 h3 h4
    unfold AgentStart
    rw [h1, h2, h3, h4]

/-- A start environment in which every external call succeeds except the
background listener's bind. -/
def envListenFail : StartEnv :=
  { bootstrapRes := .ok (), newGPUMonitorRes := .ok (), firstGPURefreshRes := .ok ()
    gpuCountRes := .ok 2, newContainerManagerRes := .ok (), firstContainerRefreshRes := .ok ()
    frpStartRes := .ok ()
    apiListenRes := .error "listen tcp 127.0.0.1:9200: bind: address already in use" }

/-- The same environment with a failing first container refresh and a
healthy listener. -/
def envRefreshFail : StartEnv :=
  { envListenFail with
    apiListenRes := .ok (),
    firstContainerRefreshRes := .error "failed to list containers: exit status 1" }

/-- The same environment with a failing bootstrap. -/
def envBootFail : StartEnv :=
  { envListenFail with
    bootstrapRes := .error "failed to register with platform: connection refused" }

/-- C9 counterexample: when the API listener's bind fails, `Start()`
still runs every remaining stage and returns success — the listener error
is not propagated synchronously and aborts nothing. -/
theorem start_sequence_counterexample :
    envListenFail.apiListenRes =
      .error "listen tcp 127.0.0.1:9200: bind: address already in use" ∧
    AgentStart envListenFail =
      ([.bootstrapStep, .monitorsStep, .containerMgrStep, .containerRefreshStep,
        .frpStep, .apiServerStep, .backgroundStep], .ok ()) :=
  ⟨rfl, rfl⟩

/-- Witness for the amended C9 at concrete environments. -/
theorem start_sequence_corrected_witness :
    AgentStart { envRefreshFail with firstContainerRefreshRes := .ok () } =
      AgentStart envRefreshFail ∧
    AgentStart envBootFail = ([.bootstrapStep],
      .error ("bootstrap failed: " ++ "failed to register with platform: connection refused")) :=
  ⟨start_sequence_corrected.1 envRefreshFail (.ok ()),
   start_sequence_corrected.2.2.1 envBootFail
     "failed to register with platform: connection refused" rfl⟩

end NodeAgent
